import Mathlib

/-
Verification of transfer.py: a shallow embedding of the training script
(checkpoint restore, network selection, batch-norm activation tap,
regularization penalty, per-step metrics log, validation interpolation,
best-model selection, save epilogue) together with proofs about it.

Machine floats of the original are modelled with exact rationals; the
per-step numeric values produced by forward passes are supplied by an
environment oracle, while the value-level shape of the penalty
computation (a Python list of per-layer scalar tensors) is modelled
explicitly with the PyVal type.
-/

namespace Transfer

/-- A rank-4 tensor of shape N x C x H x W (batch, channel, height, width),
entries indexed by four naturals. Embeds the activation tensors of the source. -/
structure Tensor4 where
  n : Nat
  c : Nat
  h : Nat
  w : Nat
  entry : Nat → Nat → Nat → Nat → ℚ

instance : Inhabited Tensor4 := ⟨⟨0, 0, 0, 0, fun _ _ _ _ => 0⟩⟩

/-- Sum of all entries of channel ci over batch and spatial dimensions. -/
def tripleSum (t : Tensor4) (ci : Nat) : ℚ :=
  ((List.range t.n).map (fun ni =>
    ((List.range t.h).map (fun hi =>
      ((List.range t.w).map (fun wi => t.entry ni ci hi wi)).sum)).sum)).sum

/-- input.mean(dim=[0, 2, 3]) of src line 105: the per-channel mean over the
batch dimension 0 and the spatial dimensions 2 and 3, one rational per channel. -/
def meanDim023 (t : Tensor4) : List ℚ :=
  (List.range t.c).map (fun ci => tripleSum t ci / ((t.n * t.h * t.w : Nat) : ℚ))

/-- A tapped normalization layer: its persistent running_mean statistic,
one entry per channel (src line 105 reads bn.running_mean). -/
structure BNLayer where
  running_mean : List ℚ

instance : Inhabited BNLayer := ⟨⟨[]⟩⟩

/-- A dynamic Python value: a 0-dimensional scalar tensor or a list of values.
Used to model the shape of what get_bn_loss returns (src lines 103-107). -/
inductive PyVal where
  | scalar (q : ℚ)
  | list (xs : List PyVal)

/-- The message of the exception raised by evaluating item() on a Python list. -/
def listItemError : String := "AttributeError: list object has no attribute item"

/-- tensor.item() succeeds on a scalar tensor; calling item() on a Python list
raises AttributeError (src lines 135 and 139 evaluate loss_bn.item()). -/
def pyItem : PyVal → Except String ℚ
  | PyVal.scalar q => Except.ok q
  | PyVal.list _ => Except.error listItemError

/-- One per-layer penalty of src line 105:
((bn.running_mean - input.mean(dim=[0, 2, 3])) ** 2).sum()
as an elementwise squared difference over channels, then summed. This is the
tensor-level value of the expression for a tensor-valued input; the path the
program actually executes, on the tuple-valued capture slots, is
bnLayerTermHook (see C2). -/
def bnLayerTerm (bn : BNLayer) (input : Tensor4) : ℚ :=
  (List.zipWith (fun r m => (r - m) ^ 2) bn.running_mean (meanDim023 input)).sum

/-- The per-layer scalars of the comprehension in src lines 104-107,
one scalar tensor per (bn, input) pair of zip(bn_layers, layer_activations). -/
def bnLossTerms (bn_layers : List BNLayer) (layer_activations : List Tensor4) : List PyVal :=
  (List.zip bn_layers layer_activations).map (fun p => PyVal.scalar (bnLayerTerm p.1 p.2))

/-- get_bn_loss of src lines 103-107. Note the source returns the parenthesized
list comprehension itself: there is no sum(...) around it, so the value is a
Python list of per-layer scalar tensors. -/
def get_bn_loss (bn_layers : List BNLayer) (layer_activations : List Tensor4) : PyVal :=
  PyVal.list (bnLossTerms bn_layers layer_activations)

/-- Modelled from the spec for claim C1: the aggregate penalty is the sum of
all per-layer scalars (spec section 4.3). -/
def specAggPenalty (bn_layers : List BNLayer) (layer_activations : List Tensor4) : ℚ :=
  ((List.zip bn_layers layer_activations).map (fun p => bnLayerTerm p.1 p.2)).sum

/-- The metrics dictionary construction of src lines 133-139: both branches
evaluate loss_bn.item(); the supervised branch additionally records loss_crit.
An error models the uncaught Python exception at that line. -/
def stepMetrics (unsupervised : Bool) (acc : ℚ) (loss_crit : ℚ) (loss_bn : PyVal) :
    Except String (List (String × ℚ)) :=
  match pyItem loss_bn with
  | Except.ok v =>
      Except.ok (if unsupervised then [("acc", acc), ("loss_bn", v)]
                 else [("acc", acc), ("loss_bn", v), ("loss_crit", loss_crit)])
  | Except.error e => Except.error e

/-- The tuple of positional inputs the framework passes to a forward hook:
for these layers, the 1-tuple holding the single input tensor. A Python tuple
of tensors is modelled as a list of tensors. -/
def inputsTupleOf (x : Tensor4) : List Tensor4 := [x]

/-- The body of the hook of src lines 93-96: the hook made for index idx
writes its second argument into slot idx of the capture buffer. That argument
is the TUPLE of forward inputs, and line 95 stores the tuple wholesale, not
the input tensor it contains. -/
def hookFire (buf : List (Option (List Tensor4))) (idx : Nat) (inputs : List Tensor4) :
    List (Option (List Tensor4)) :=
  buf.set idx (some inputs)

/-- One full forward pass fires the hooks in registration order (src 99-100):
the hook registered for layer position s receives the inputs tuple of layer s. -/
def applyHooks : List (Option (List Tensor4)) → List (List Tensor4) → Nat →
    List (Option (List Tensor4))
  | buf, [], _ => buf
  | buf, t :: ts, s => applyHooks (hookFire buf s t) ts (s + 1)

/-- layer_activations = [None] * len(bn_layers) (src line 90) followed by one
forward pass through every tapped layer: the hook of layer s is handed the
1-tuple holding the input of layer s. -/
def forwardCapture (inputs : List Tensor4) : List (Option (List Tensor4)) :=
  applyHooks (List.replicate inputs.length none) (inputs.map inputsTupleOf) 0

/-- The message of the exception raised by looking up mean on a tuple. -/
def tupleMeanError : String := "AttributeError: tuple object has no attribute mean"

/-- The attribute access input.mean of src line 105 as executed on a captured
slot value: the slot holds the tuple of forward inputs, and a Python tuple has
no mean attribute, so the lookup raises. -/
def tupleMean (_inputs : List Tensor4) : Except String (List ℚ) :=
  Except.error tupleMeanError

/-- The per-layer term of src line 105 as actually executed on a captured slot
value: evaluate input.mean(dim=[0, 2, 3]) on the stored tuple, then square the
difference against the running mean and sum; the very first step raises, so
the ok branch is never reached. -/
def bnLayerTermHook (bn : BNLayer) (inputs : List Tensor4) : Except String ℚ :=
  match tupleMean inputs with
  | Except.ok m =>
      Except.ok ((List.zipWith (fun r mc => (r - mc) ^ 2) bn.running_mean m).sum)
  | Except.error e => Except.error e

/-- Modelled from the spec for claim C2 (section 4.3): the spatial/batch mean
of the captured activation at channel ci. -/
def specChannelMean (t : Tensor4) (ci : Nat) : ℚ :=
  (∑ ni ∈ Finset.range t.n, ∑ hi ∈ Finset.range t.h, ∑ wi ∈ Finset.range t.w,
    t.entry ni ci hi wi) / ((t.n * t.h * t.w : Nat) : ℚ)

/-- Modelled from the spec for claim C2 (section 4.3): the squared difference
between the stored running-mean statistic and the captured mean, summed over
channels. -/
def specLayerPenalty (rm : List ℚ) (t : Tensor4) : ℚ :=
  ∑ ci ∈ Finset.range t.c, (rm.getD ci 0 - specChannelMean t ci) ^ 2

/-- The command-line arguments of src lines 16-34 that the core consumes.
Fields dataset_to, model_from, ckpt, lr and batch_size only shape the external
collaborators and are abstracted into the environment. -/
structure Args where
  network : String
  cuda : Bool
  num_epochs : Nat
  unsupervised : Bool
  distortion_test : Bool
  resume_training : Bool
  reset : Bool
  save_best : Bool

/-- The choices list of the network argument (src line 19). -/
def networkChoices : List String := ["Unet", "UnetPlusPlus"]

/-- The two model constructors the selection code can actually produce
(src lines 71-74). -/
inductive Model where
  | resnet18
  | resnet34
deriving DecidableEq

/-- src lines 71-74: the model variable starts unbound; two independent if
statements bind it only for the strings resnet18 and resnet34. A value of
none models the variable staying undefined, with no error raised here. -/
def selectModel (network : String) : Option Model :=
  let model : Option Model := none
  let model := if network = "resnet18" then some Model.resnet18 else model
  let model := if network = "resnet34" then some Model.resnet34 else model
  model

/-- src line 36: device = cuda unconditionally; the conditional on args.cuda
is commented out in the source. -/
def device (_args : Args) : String := "cuda"

/-- The metrics log (src defaultdict logs): the four metric names the script
ever appends to. A key is present in the defaultdict exactly when its sequence
is nonempty, since the script only ever appends. -/
structure Logs where
  acc : List ℚ
  loss_bn : List ℚ
  loss_crit : List ℚ
  val_acc : List ℚ
deriving DecidableEq

def Logs.empty : Logs := ⟨[], [], [], []⟩

/-- The checkpoint bundle of src lines 163-164 (the optimizer object is tied
1:1 to the model and carries no information the claims consult). -/
structure Checkpoint where
  model : Model
  epoch : Nat
  acc : ℚ
  logs : Logs
deriving DecidableEq

/-- The state produced by the restore-or-initialize block of src lines 58-77. -/
structure StartState where
  model : Option Model
  init_epoch : Nat
  best_acc : ℚ
  logs : Logs

/-- src lines 58-77: load the checkpoint when the file exists and reset is not
given; otherwise fresh state with epoch 0, best accuracy 0, empty logs, and a
model chosen by the two if statements of lines 71-74. -/
def startState (a : Args) (disk : Option Checkpoint) : StartState :=
  match disk with
  | some ck =>
      if a.reset then ⟨selectModel a.network, 0, 0, Logs.empty⟩
      else ⟨some ck.model, ck.epoch, ck.acc, ck.logs⟩
  | none => ⟨selectModel a.network, 0, 0, Logs.empty⟩

/-- The environment oracle abstracting the external collaborators: the loader
length, the per-step metric values an actual forward pass would yield (their
faithful value-level computation is modelled by get_bn_loss and stepMetrics),
and the validation accuracies test_accuracy returns (src lines 80 and 154). -/
structure Env where
  batches : Nat
  stepAcc : Nat → ℚ
  stepLossBn : Nat → ℚ
  stepLossCrit : Nat → ℚ
  initValidAcc : ℚ
  epochValidAcc : Nat → ℚ

/-- The mutable state threaded through the training loop: the logs, the
best-accuracy watermark, the last measured validation accuracy, the checkpoint
currently on disk, and counters of executed steps and performed saves. -/
structure RunState where
  logs : Logs
  best_acc : ℚ
  valid_acc : ℚ
  file : Option Checkpoint
  steps : Nat
  saves : Nat
deriving DecidableEq

/-- src lines 133-142: the metrics of one step are appended to the defaultdict;
loss_crit is appended only in supervised mode. -/
def appendStep (unsupervised : Bool) (a lb lc : ℚ) (g : Logs) : Logs :=
  if unsupervised then
    { g with acc := g.acc ++ [a], loss_bn := g.loss_bn ++ [lb] }
  else
    { g with acc := g.acc ++ [a], loss_bn := g.loss_bn ++ [lb],
             loss_crit := g.loss_crit ++ [lc] }

/-- src lines 117-146: iterate every batch of one epoch; global step indices
start at epoch * len(train_loader) (src lines 119-120). -/
def epochSteps (env : Env) (unsupervised : Bool) (epoch : Nat) (g : Logs) : Logs :=
  (List.range env.batches).foldl (fun g2 j =>
    appendStep unsupervised (env.stepAcc (epoch * env.batches + j))
      (env.stepLossBn (epoch * env.batches + j))
      (env.stepLossCrit (epoch * env.batches + j)) g2) g

/-- torch.linspace(a, b, steps).tolist() over exact rationals: steps evenly
spaced points from a to b inclusive; steps = 1 yields the single point a,
steps = 0 yields the empty list. -/
def linspace (a b : ℚ) (steps : Nat) : List ℚ :=
  if steps = 0 then []
  else if steps = 1 then [a]
  else (List.range steps).map (fun i : Nat => a + (b - a) * (i : ℚ) / ((steps : ℚ) - 1))

/-- The save condition of src line 158: not args.save_best or valid_acc > best_acc. -/
def shouldSave (save_best : Bool) (valid_acc best_acc : ℚ) : Bool :=
  !save_best || decide (best_acc < valid_acc)

/-- One epoch of src lines 117-164: the per-batch steps, the validation pass,
the linspace interpolation appended to val_acc (lines 153-156), and the
conditional plot, watermark update and checkpoint save (lines 158-164). -/
def runEpoch (a : Args) (env : Env) (m : Model) (epoch : Nat) (st : RunState) : RunState :=
  let g1 := epochSteps env a.unsupervised epoch st.logs
  let vNew := env.epochValidAcc epoch
  let g2 := { g1 with val_acc := g1.val_acc ++ linspace st.valid_acc vNew env.batches }
  if shouldSave a.save_best vNew st.best_acc then
    { logs := g2, best_acc := vNew, valid_acc := vNew,
      file := some ⟨m, epoch + 1, vNew, g2⟩,
      steps := st.steps + env.batches, saves := st.saves + 1 }
  else
    { logs := g2, best_acc := st.best_acc, valid_acc := vNew,
      file := st.file, steps := st.steps + env.batches, saves := st.saves }

/-- The state after the first k epochs of the loop of src line 117, which runs
epoch numbers init_epoch, init_epoch + 1, ... -/
def stateAfterEpochs (a : Args) (env : Env) (m : Model) (init_epoch : Nat)
    (st : RunState) (k : Nat) : RunState :=
  (List.range k).foldl (fun s j => runEpoch a env m (init_epoch + j) s) st

/-- The training gate of src line 112: not os.path.exists(args.ckpt) or
args.resume_training. -/
def trainingGate (a : Args) (disk : Option Checkpoint) : Bool :=
  disk.isNone || a.resume_training

/-- The run state right before the gate of src line 112: restored or fresh
logs and best accuracy, the initial validation accuracy of src line 80, the
file currently on disk, and zeroed step and save counters. -/
def initRunState (env : Env) (s0 : StartState) (disk : Option Checkpoint) : RunState :=
  ⟨s0.logs, s0.best_acc, env.initValidAcc, disk, 0, 0⟩

/-- Subscripting a plain module object: the base module class defines no item
access, so indexing the loaded model object with a string key fails with a
TypeError. Src line 167 extracts the model entry of the loaded bundle and src
line 168 then subscripts it with the key epoch. -/
def modelGetItem (_m : Model) (_key : String) : Option ℚ := none

/-- The message of the exception raised by subscripting a module object. -/
def modelSubscriptError : String := "TypeError: model object is not subscriptable"

/-- The whole run of src lines 58-171 with per-step numerics abstracted by the
environment: restore or fresh-initialize (58-77, an unbound model fails at
line 75), the gated training loop (112-164), the save_best epilogue that
reloads the checkpoint and subscripts its model entry (166-168), and the final
plot (171). A returned error models an uncaught Python exception; reaching the
ok constructor means the final plot of line 171 was rendered. -/
def mainRun (a : Args) (env : Env) (disk : Option Checkpoint) : Except String RunState :=
  let s0 := startState a disk
  match s0.model with
  | none => Except.error "NameError: name model is not defined"
  | some m =>
      let st0 := initRunState env s0 disk
      if trainingGate a disk then
        let st := stateAfterEpochs a env m s0.init_epoch st0 a.num_epochs
        if a.save_best then
          match st.file with
          | some ck =>
              match modelGetItem ck.model "epoch" with
              | some _ => Except.ok st
              | none => Except.error modelSubscriptError
          | none => Except.error "FileNotFoundError"
        else Except.ok st
      else Except.ok st0

/-- Whether the final plot of src line 171 is reached. -/
def plotRendered : Except String RunState → Bool
  | Except.ok _ => true
  | Except.error _ => false

/-- The logs of a finished run, or the empty logs when the run raised. -/
def logsOf : Except String RunState → Logs
  | Except.ok st => st.logs
  | Except.error _ => Logs.empty

/-- A one-batch environment with constant step metrics, initial validation
accuracy 0 and per-epoch validation accuracy 1. -/
def envA : Env := ⟨1, fun _ => 0, fun _ => 0, fun _ => 0, 0, fun _ => 1⟩

/-- An unsupervised fresh one-epoch argument vector. -/
def argsUnsup : Args :=
  ⟨"resnet18", false, 1, true, false, false, false, false⟩

/-- A supervised resumed one-epoch argument vector. -/
def argsResume : Args :=
  ⟨"resnet18", false, 1, false, false, true, false, false⟩

/-- A supervised fresh one-epoch argument vector with save_best set. -/
def argsSaveBest : Args :=
  ⟨"resnet18", false, 1, false, false, false, false, true⟩

/-- A supervised fresh one-epoch argument vector with no flags set. -/
def argsPlain : Args :=
  ⟨"resnet18", false, 1, false, false, false, false, false⟩

/-- A checkpoint holding one prior entry in every metric sequence, saved after
one earlier epoch. -/
def ckPrior : Checkpoint :=
  ⟨Model.resnet18, 1, 0, ⟨[0], [0], [0], [0]⟩⟩


/-- A two-batch environment with constant step metrics, initial validation
accuracy 0 and per-epoch validation accuracy 1. -/
def envB : Env := ⟨2, fun _ => 0, fun _ => 0, fun _ => 0, 0, fun _ => 1⟩

/-- The empty run state: empty logs, zero watermark and accuracy, no file. -/
def stEmpty : RunState := ⟨Logs.empty, 0, 0, none, 0, 0⟩

theorem sum_range_map (f : Nat → ℚ) (n : Nat) :
    ((List.range n).map f).sum = ∑ j ∈ Finset.range n, f j := by
  induction n with
  | zero => simp
  | succ k ih =>
      rw [List.range_succ, List.map_append, List.sum_append, Finset.sum_range_succ, ih]
      simp

theorem zipWith_sq_sum (rm : List ℚ) (g : Nat → ℚ) (n : Nat) (h : rm.length = n) :
    (List.zipWith (fun r m => (r - m) ^ 2) rm ((List.range n).map g)).sum
      = ∑ c ∈ Finset.range n, (rm.getD c 0 - g c) ^ 2 := by
  induction n generalizing rm g with
  | zero =>
      have hrm : rm = [] := List.length_eq_zero.mp h
      subst hrm; simp
  | succ k ih =>
      cases rm with
      | nil => simp at h
      | cons r rm2 =>
          have hlen : rm2.length = k := by simpa using h
          rw [List.range_succ_eq_map, List.map_cons, List.zipWith_cons_cons, List.sum_cons,
              List.map_map, Finset.sum_range_succ']
          simp only [List.getD_cons_succ, List.getD_cons_zero]
          have hcomp : List.map (g ∘ Nat.succ) (List.range k)
              = List.map (fun j => g (j + 1)) (List.range k) := rfl
          rw [hcomp, ih rm2 (fun j => g (j + 1)) hlen]
          ring

theorem tripleSum_eq (t : Tensor4) (ci : Nat) :
    tripleSum t ci = ∑ ni ∈ Finset.range t.n, ∑ hi ∈ Finset.range t.h,
      ∑ wi ∈ Finset.range t.w, t.entry ni ci hi wi := by
  simp only [tripleSum, sum_range_map]

theorem bnLayerTerm_eq_spec (bn : BNLayer) (t : Tensor4)
    (hch : bn.running_mean.length = t.c) :
    bnLayerTerm bn t = specLayerPenalty bn.running_mean t := by
  unfold bnLayerTerm meanDim023 specLayerPenalty
  rw [zipWith_sq_sum bn.running_mean _ t.c hch]
  refine Finset.sum_congr rfl (fun c hc => ?_)
  rw [specChannelMean, tripleSum_eq]

theorem applyHooks_getElem_lt (inputs : List (List Tensor4)) :
    ∀ (buf : List (Option (List Tensor4))) (s i : Nat), i < s →
      (applyHooks buf inputs s)[i]? = buf[i]? := by
  induction inputs with
  | nil => intro buf s i _; rfl
  | cons x xs ih =>
      intro buf s i hi
      show (applyHooks (hookFire buf s x) xs (s + 1))[i]? = buf[i]?
      rw [ih (hookFire buf s x) (s + 1) i (Nat.lt_succ_of_lt hi)]
      exact List.getElem?_set_ne (Nat.ne_of_gt hi)

theorem applyHooks_getElem (inputs : List (List Tensor4)) :
    ∀ (buf : List (Option (List Tensor4))) (s i : Nat), i < inputs.length →
      s + inputs.length ≤ buf.length →
      (applyHooks buf inputs s)[s + i]? = some (some (inputs.getD i default)) := by
  induction inputs with
  | nil => intro buf s i hi _; simp at hi
  | cons x xs ih =>
      intro buf s i hi hlen
      cases i with
      | zero =>
          show (applyHooks (hookFire buf s x) xs (s + 1))[s + 0]? = _
          simp only [Nat.add_zero, List.getD_cons_zero]
          rw [applyHooks_getElem_lt xs (hookFire buf s x) (s + 1) s (Nat.lt_succ_self s)]
          have hs : s < buf.length := by
            simp only [List.length_cons] at hlen; omega
          simpa [hookFire] using List.getElem?_set_eq_of_lt (some x) hs
      | succ j =>
          show (applyHooks (hookFire buf s x) xs (s + 1))[s + (j + 1)]? = _
          have hidx : s + (j + 1) = (s + 1) + j := by omega
          rw [hidx,
              ih (hookFire buf s x) (s + 1) j (by simpa using hi)
                (by simp only [hookFire, List.length_set]
                    simp only [List.length_cons] at hlen; omega)]
          simp


/-- C1: code-bug demonstration. get_bn_loss (src 103-107) returns the bare
list of per-layer scalars with no sum around it, so in both modes the metrics
construction of src lines 135 and 139 evaluates item() on a Python list and
raises, and the loss is never the claimed cross-entropy plus summed penalty.
The last conjunct evaluates the intended aggregate at the failing input. -/
theorem c1_penalty_never_summed :
    (∀ bns acts, get_bn_loss bns acts = PyVal.list (bnLossTerms bns acts)) ∧
    (∀ bns acts u a c, stepMetrics u a c (get_bn_loss bns acts) = Except.error listItemError) ∧
    stepMetrics true 0 0 (get_bn_loss [⟨[1]⟩] [⟨1, 1, 1, 1, fun _ _ _ _ => 3⟩])
      = Except.error listItemError ∧
    specAggPenalty [⟨[1]⟩] [⟨1, 1, 1, 1, fun _ _ _ _ => 3⟩] = 4 := by
  refine ⟨fun _ _ => rfl, fun _ _ _ _ _ => rfl, rfl, ?_⟩
  norm_num [specAggPenalty, bnLayerTerm, meanDim023, tripleSum]

/-- C2: code-bug demonstration. The framework passes the forward inputs to a
hook as a tuple, and the hook body of src line 95 stores that tuple wholesale:
after a forward pass, capture-buffer slot i holds the 1-tuple of the inputs of
layer i, never the input tensor itself, and evaluating the line-105 attribute
input.mean on the stored tuple raises an AttributeError for every layer, so
the per-layer penalty is never computed. The last conjunct shows the claimed
formula is exactly the intent: the tensor-level value of line 105 on the sole
element of the tuple equals the spec-side per-layer penalty. -/
theorem c2_hook_stores_tuple (bns : List BNLayer) (inputs : List Tensor4) (i : Nat)
    (hi : i < inputs.length)
    (hch : (bns.getD i default).running_mean.length = (inputs.getD i default).c) :
    (forwardCapture inputs)[i]? = some (some (inputsTupleOf (inputs.getD i default))) ∧
    (∀ (bn : BNLayer) (tup : List Tensor4),
      bnLayerTermHook bn tup = Except.error tupleMeanError) ∧
    bnLayerTerm (bns.getD i default) (inputs.getD i default)
      = specLayerPenalty (bns.getD i default).running_mean (inputs.getD i default) := by
  refine ⟨?_, fun _ _ => rfl, bnLayerTerm_eq_spec _ _ hch⟩
  have hlen : i < (inputs.map inputsTupleOf).length := by simpa using hi
  have h := applyHooks_getElem (inputs.map inputsTupleOf)
    (List.replicate inputs.length none) 0 i hlen (by simp)
  have hgetD : (inputs.map inputsTupleOf).getD i default
      = inputsTupleOf (inputs.getD i default) := by
    rw [List.getD_eq_getElem?_getD, List.getElem?_map, List.getElem?_eq_getElem hi,
        List.getD_eq_getElem?_getD, List.getElem?_eq_getElem hi]
    rfl
  rw [hgetD] at h
  simpa [forwardCapture] using h

/-- C2 witness: the theorem instantiated at one tapped layer with running mean
1 and a 1x1x1x1 input of constant value 3: the slot holds the 1-tuple, the
executed per-layer computation raises, and the intended tensor-level value
matches the spec formula. -/
theorem c2_witness :
    (forwardCapture [⟨1, 1, 1, 1, fun _ _ _ _ => 3⟩])[0]?
      = some (some (inputsTupleOf
          (([⟨1, 1, 1, 1, fun _ _ _ _ => 3⟩] : List Tensor4).getD 0 default))) ∧
    (∀ (bn : BNLayer) (tup : List Tensor4),
      bnLayerTermHook bn tup = Except.error tupleMeanError) ∧
    bnLayerTerm (([⟨[1]⟩] : List BNLayer).getD 0 default)
        (([⟨1, 1, 1, 1, fun _ _ _ _ => 3⟩] : List Tensor4).getD 0 default)
      = specLayerPenalty (([⟨[1]⟩] : List BNLayer).getD 0 default).running_mean
          (([⟨1, 1, 1, 1, fun _ _ _ _ => 3⟩] : List Tensor4).getD 0 default) :=
  c2_hook_stores_tuple [⟨[1]⟩] [⟨1, 1, 1, 1, fun _ _ _ _ => 3⟩] 0
    (by decide) (by decide)

/-- C3: confirmed. Every network string other than resnet18 and resnet34, in
particular each value the argument parser accepts (Unet and UnetPlusPlus),
leaves the model selection of src lines 71-74 with no binding: selectModel
returns none and no error is raised at the selection point, on any fresh
start (no checkpoint on disk, or the reset flag set). -/
theorem c3_network_selection_silent :
    (∀ s : String, s ≠ "resnet18" → s ≠ "resnet34" → selectModel s = none) ∧
    (∀ s ∈ networkChoices, selectModel s = none) ∧
    (∀ (a : Args) (disk : Option Checkpoint), (disk = none ∨ a.reset = true) →
      a.network ∈ networkChoices → (startState a disk).model = none) := by
  have h1 : ∀ s : String, s ≠ "resnet18" → s ≠ "resnet34" → selectModel s = none := by
    intro s hs1 hs2
    simp [selectModel, hs1, hs2]
  have h2 : ∀ s ∈ networkChoices, selectModel s = none := by
    intro s hs
    simp only [networkChoices, List.mem_cons, List.not_mem_nil, or_false] at hs
    rcases hs with rfl | rfl <;> rfl
  refine ⟨h1, h2, ?_⟩
  intro a disk hfresh hnet
  rcases hfresh with h | h
  · subst h
    simp [startState, h2 a.network hnet]
  · cases disk with
    | none => simp [startState, h2 a.network hnet]
    | some ck => simp [startState, h, h2 a.network hnet]

/-- C3 witness: the default parser value Unet on a fresh start. -/
theorem c3_witness :
    "Unet" ∈ networkChoices ∧ selectModel "Unet" = none :=
  ⟨by decide, c3_network_selection_silent.2.1 "Unet" (by decide)⟩


theorem appendStep_acc_len (u : Bool) (a lb lc : ℚ) (g : Logs) :
    (appendStep u a lb lc g).acc.length = g.acc.length + 1 := by
  cases u <;> simp [appendStep]

theorem appendStep_bn_len (u : Bool) (a lb lc : ℚ) (g : Logs) :
    (appendStep u a lb lc g).loss_bn.length = g.loss_bn.length + 1 := by
  cases u <;> simp [appendStep]

theorem appendStep_crit_len (u : Bool) (a lb lc : ℚ) (g : Logs) :
    (appendStep u a lb lc g).loss_crit.length
      = g.loss_crit.length + (if u then 0 else 1) := by
  cases u <;> simp [appendStep]

theorem appendStep_crit_unsup (a lb lc : ℚ) (g : Logs) :
    (appendStep true a lb lc g).loss_crit = g.loss_crit := rfl

theorem appendStep_val (u : Bool) (a lb lc : ℚ) (g : Logs) :
    (appendStep u a lb lc g).val_acc = g.val_acc := by
  cases u <;> rfl

theorem epochSteps_lens (env : Env) (u : Bool) (e : Nat) (g : Logs) :
    (epochSteps env u e g).acc.length = g.acc.length + env.batches ∧
    (epochSteps env u e g).loss_bn.length = g.loss_bn.length + env.batches ∧
    (epochSteps env u e g).loss_crit.length
      = g.loss_crit.length + (if u then 0 else env.batches) ∧
    (epochSteps env u e g).val_acc = g.val_acc ∧
    (u = true → (epochSteps env u e g).loss_crit = g.loss_crit) := by
  have hGen : ∀ (L : List Nat) (g : Logs),
      ((L.foldl (fun g2 j =>
          appendStep u (env.stepAcc (e * env.batches + j))
            (env.stepLossBn (e * env.batches + j))
            (env.stepLossCrit (e * env.batches + j)) g2) g).acc.length
          = g.acc.length + L.length ∧
       (L.foldl (fun g2 j =>
          appendStep u (env.stepAcc (e * env.batches + j))
            (env.stepLossBn (e * env.batches + j))
            (env.stepLossCrit (e * env.batches + j)) g2) g).loss_bn.length
          = g.loss_bn.length + L.length ∧
       (L.foldl (fun g2 j =>
          appendStep u (env.stepAcc (e * env.batches + j))
            (env.stepLossBn (e * env.batches + j))
            (env.stepLossCrit (e * env.batches + j)) g2) g).loss_crit.length
          = g.loss_crit.length + (if u then 0 else L.length) ∧
       (L.foldl (fun g2 j =>
          appendStep u (env.stepAcc (e * env.batches + j))
            (env.stepLossBn (e * env.batches + j))
            (env.stepLossCrit (e * env.batches + j)) g2) g).val_acc = g.val_acc ∧
       (u = true → (L.foldl (fun g2 j =>
          appendStep u (env.stepAcc (e * env.batches + j))
            (env.stepLossBn (e * env.batches + j))
            (env.stepLossCrit (e * env.batches + j)) g2) g).loss_crit = g.loss_crit)) := by
    intro L
    induction L with
    | nil => intro g; simp
    | cons j L ih =>
        intro g
        rw [List.foldl_cons]
        obtain ⟨ha, hb, hc, hv, hcu⟩ := ih (appendStep u (env.stepAcc (e * env.batches + j))
          (env.stepLossBn (e * env.batches + j)) (env.stepLossCrit (e * env.batches + j)) g)
        refine ⟨?_, ?_, ?_, ?_, ?_⟩
        · rw [ha, appendStep_acc_len]; simp [List.length_cons]; omega
        · rw [hb, appendStep_bn_len]; simp [List.length_cons]; omega
        · rw [hc, appendStep_crit_len]
          cases u
          · simp only [Bool.false_eq_true, if_false, List.length_cons]
            omega
          · simp only [if_true, List.length_cons, Nat.add_zero]
        · rw [hv, appendStep_val]
        · intro hu
          subst hu
          rw [hcu rfl, appendStep_crit_unsup]
  have h := hGen (List.range env.batches) g
  simpa [epochSteps, List.length_range] using h

theorem linspace_length (a b : ℚ) (n : Nat) : (linspace a b n).length = n := by
  unfold linspace
  split_ifs with h0 h1
  · simp [h0]
  · simp [h1]
  · simp

theorem linspace_one (a b : ℚ) : linspace a b 1 = [a] := rfl

theorem linspace_head (a b : ℚ) (n : Nat) (h : 1 ≤ n) :
    (linspace a b n).head? = some a := by
  unfold linspace
  rcases Nat.lt_or_ge n 2 with h2 | h2
  · have hn : n = 1 := by omega
    subst hn
    simp
  · have hn0 : n ≠ 0 := by omega
    have hn1 : n ≠ 1 := by omega
    rw [if_neg hn0, if_neg hn1, List.head?_eq_getElem?, List.getElem?_map,
        List.getElem?_range (by omega : 0 < n)]
    norm_num

theorem linspace_last (a b : ℚ) (n : Nat) (h : 2 ≤ n) :
    (linspace a b n).getLast? = some b := by
  have hn0 : n ≠ 0 := by omega
  have hn1 : n ≠ 1 := by omega
  unfold linspace
  rw [if_neg hn0, if_neg hn1, List.getLast?_eq_getElem?]
  simp only [List.length_map, List.length_range]
  rw [List.getElem?_map, List.getElem?_range (by omega : n - 1 < n)]
  have hcast : ((n - 1 : ℕ) : ℚ) = (n : ℚ) - 1 := by
    push_cast [Nat.cast_sub (by omega : 1 ≤ n)]
    ring
  have hne : (n : ℚ) - 1 ≠ 0 := by
    have h2q : (2 : ℚ) ≤ (n : ℚ) := by exact_mod_cast h
    intro hzero
    nlinarith
  simp only [Option.map_some']
  rw [hcast, mul_div_assoc, div_self hne, mul_one]
  norm_num

theorem linspace_step (a b : ℚ) (n : Nat) (h : 2 ≤ n) (i : Nat) (hi : i + 1 < n) :
    (linspace a b n).getD (i + 1) 0 - (linspace a b n).getD i 0
      = (b - a) / ((n : ℚ) - 1) := by
  have hn0 : n ≠ 0 := by omega
  have hn1 : n ≠ 1 := by omega
  have hne : (n : ℚ) - 1 ≠ 0 := by
    have h2q : (2 : ℚ) ≤ (n : ℚ) := by exact_mod_cast h
    intro hzero
    nlinarith
  unfold linspace
  rw [if_neg hn0, if_neg hn1]
  simp only [List.getD_eq_getElem?_getD, List.getElem?_map, List.getElem?_range hi,
    List.getElem?_range (by omega : i < n), Option.map_some', Option.getD_some]
  push_cast
  field_simp
  ring

theorem runEpoch_fields (a : Args) (env : Env) (m : Model) (e : Nat) (st : RunState) :
    (runEpoch a env m e st).logs.acc = (epochSteps env a.unsupervised e st.logs).acc ∧
    (runEpoch a env m e st).logs.loss_bn = (epochSteps env a.unsupervised e st.logs).loss_bn ∧
    (runEpoch a env m e st).logs.loss_crit
      = (epochSteps env a.unsupervised e st.logs).loss_crit ∧
    (runEpoch a env m e st).logs.val_acc
      = (epochSteps env a.unsupervised e st.logs).val_acc
        ++ linspace st.valid_acc (env.epochValidAcc e) env.batches ∧
    (runEpoch a env m e st).steps = st.steps + env.batches ∧
    (runEpoch a env m e st).valid_acc = env.epochValidAcc e := by
  by_cases hss : shouldSave a.save_best (env.epochValidAcc e) st.best_acc = true <;>
    simp [runEpoch, hss]

theorem runEpoch_save (a : Args) (env : Env) (m : Model) (e : Nat) (st : RunState) :
    (runEpoch a env m e st).saves
      = st.saves + (if shouldSave a.save_best (env.epochValidAcc e) st.best_acc then 1 else 0) ∧
    (runEpoch a env m e st).best_acc
      = (if shouldSave a.save_best (env.epochValidAcc e) st.best_acc then env.epochValidAcc e
         else st.best_acc) ∧
    (runEpoch a env m e st).file
      = (if shouldSave a.save_best (env.epochValidAcc e) st.best_acc
         then some ⟨m, e + 1, env.epochValidAcc e, (runEpoch a env m e st).logs⟩
         else st.file) := by
  by_cases hss : shouldSave a.save_best (env.epochValidAcc e) st.best_acc = true <;>
    simp [runEpoch, hss]

theorem runEpoch_best_mono (a : Args) (env : Env) (m : Model) (e : Nat) (st : RunState)
    (hsb : a.save_best = true) :
    st.best_acc ≤ (runEpoch a env m e st).best_acc := by
  have h := (runEpoch_save a env m e st).2.1
  by_cases hss : shouldSave a.save_best (env.epochValidAcc e) st.best_acc = true
  · rw [h, if_pos hss]
    rw [hsb] at hss
    have hlt : st.best_acc < env.epochValidAcc e := by
      simpa [shouldSave] using hss
    exact le_of_lt hlt
  · rw [h, if_neg hss]

theorem stateAfterEpochs_succ (a : Args) (env : Env) (m : Model) (i : Nat) (st : RunState)
    (k : Nat) :
    stateAfterEpochs a env m i st (k + 1)
      = runEpoch a env m (i + k) (stateAfterEpochs a env m i st k) := by
  unfold stateAfterEpochs
  rw [List.range_succ, List.foldl_append, List.foldl_cons, List.foldl_nil]

theorem runEpoch_lens (a : Args) (env : Env) (m : Model) (e : Nat) (st : RunState) :
    (runEpoch a env m e st).logs.acc.length = st.logs.acc.length + env.batches ∧
    (runEpoch a env m e st).logs.loss_bn.length = st.logs.loss_bn.length + env.batches ∧
    (runEpoch a env m e st).logs.loss_crit.length
      = st.logs.loss_crit.length + (if a.unsupervised then 0 else env.batches) ∧
    (runEpoch a env m e st).logs.val_acc.length = st.logs.val_acc.length + env.batches ∧
    (runEpoch a env m e st).steps = st.steps + env.batches ∧
    (a.unsupervised = true → (runEpoch a env m e st).logs.loss_crit = st.logs.loss_crit) := by
  obtain ⟨f1, f2, f3, f4, f5, _⟩ := runEpoch_fields a env m e st
  obtain ⟨e1, e2, e3, e4, e5⟩ := epochSteps_lens env a.unsupervised e st.logs
  refine ⟨?_, ?_, ?_, ?_, f5, ?_⟩
  · rw [f1, e1]
  · rw [f2, e2]
  · rw [f3, e3]
  · rw [f4, List.length_append, e4, linspace_length]
  · intro hu
    rw [f3, e5 hu]

theorem stateAfterEpochs_lens (a : Args) (env : Env) (m : Model) (i : Nat) (st : RunState)
    (k : Nat) :
    (stateAfterEpochs a env m i st k).logs.acc.length
      = st.logs.acc.length + k * env.batches ∧
    (stateAfterEpochs a env m i st k).logs.loss_bn.length
      = st.logs.loss_bn.length + k * env.batches ∧
    (stateAfterEpochs a env m i st k).logs.loss_crit.length
      = st.logs.loss_crit.length + (if a.unsupervised then 0 else k * env.batches) ∧
    (stateAfterEpochs a env m i st k).logs.val_acc.length
      = st.logs.val_acc.length + k * env.batches ∧
    (stateAfterEpochs a env m i st k).steps = st.steps + k * env.batches ∧
    (a.unsupervised = true →
      (stateAfterEpochs a env m i st k).logs.loss_crit = st.logs.loss_crit) := by
  induction k with
  | zero => simp [stateAfterEpochs]
  | succ k ih =>
      obtain ⟨i1, i2, i3, i4, i5, i6⟩ := ih
      obtain ⟨r1, r2, r3, r4, r5, r6⟩ :=
        runEpoch_lens a env m (i + k) (stateAfterEpochs a env m i st k)
      rw [stateAfterEpochs_succ]
      refine ⟨?_, ?_, ?_, ?_, ?_, ?_⟩
      · rw [r1, i1]; ring
      · rw [r2, i2]; ring
      · rw [r3, i3]
        cases a.unsupervised
        · simp only [Bool.false_eq_true, if_false]
          ring
        · simp only [if_true, Nat.add_zero]
      · rw [r4, i4]; ring
      · rw [r5, i5]; ring
      · intro hu
        rw [r6 hu, i6 hu]

/-- C4: confirmed. When the checkpoint file exists and resume_training is not
set, the gate of src line 112 is false regardless of every other flag, so the
whole run executes zero training steps, performs zero saves, and leaves the
stored checkpoint on disk untouched; the run either finishes immediately with
the restored state or raises the line-75 NameError (reset set with an
unselectable network), and in both cases no step runs and no save happens. -/
theorem c4_idempotent_rerun (a : Args) (env : Env) (ck : Checkpoint)
    (hres : a.resume_training = false) :
    trainingGate a (some ck) = false ∧
    (mainRun a env (some ck)
        = Except.ok (initRunState env (startState a (some ck)) (some ck)) ∨
      mainRun a env (some ck) = Except.error "NameError: name model is not defined") ∧
    (∀ st, mainRun a env (some ck) = Except.ok st →
      st.steps = 0 ∧ st.saves = 0 ∧ st.file = some ck) := by
  have hgate : trainingGate a (some ck) = false := by
    simp [trainingGate, hres]
  have hchar : mainRun a env (some ck)
        = Except.ok (initRunState env (startState a (some ck)) (some ck)) ∨
      mainRun a env (some ck) = Except.error "NameError: name model is not defined" := by
    unfold mainRun
    cases hm : (startState a (some ck)).model with
    | none => right; simp [hm]
    | some m => left; simp [hm, hgate]
  refine ⟨hgate, hchar, ?_⟩
  intro st hok
  rcases hchar with h | h
  · rw [h] at hok
    cases hok
    exact ⟨rfl, rfl, rfl⟩
  · rw [h] at hok
    cases hok

/-- C4 witness: a concrete run with an existing checkpoint and resume unset. -/
theorem c4_witness :
    trainingGate argsPlain (some ckPrior) = false ∧
    (mainRun argsPlain envA (some ckPrior)
        = Except.ok (initRunState envA (startState argsPlain (some ckPrior)) (some ckPrior)) ∨
      mainRun argsPlain envA (some ckPrior)
        = Except.error "NameError: name model is not defined") ∧
    (∀ st, mainRun argsPlain envA (some ckPrior) = Except.ok st →
      st.steps = 0 ∧ st.saves = 0 ∧ st.file = some ckPrior) :=
  c4_idempotent_rerun argsPlain envA ckPrior rfl

/-- C5: confirmed. With save_best unset the save condition of src line 158 is
always true (a save after every epoch); with save_best set it is true exactly
when the new validation accuracy strictly exceeds the watermark; on acceptance
the watermark becomes the new accuracy; and with save_best set the watermark
is monotonically non-decreasing over each epoch and over any number of epochs. -/
theorem c5_best_model_selector :
    (∀ v b : ℚ, shouldSave false v b = true) ∧
    (∀ v b : ℚ, (shouldSave true v b = true) ↔ b < v) ∧
    (∀ (a : Args) (env : Env) (m : Model) (e : Nat) (st : RunState),
      (runEpoch a env m e st).saves
        = st.saves
          + (if shouldSave a.save_best (env.epochValidAcc e) st.best_acc then 1 else 0)) ∧
    (∀ (a : Args) (env : Env) (m : Model) (e : Nat) (st : RunState),
      shouldSave a.save_best (env.epochValidAcc e) st.best_acc = true →
      (runEpoch a env m e st).best_acc = env.epochValidAcc e) ∧
    (∀ (a : Args) (env : Env) (m : Model) (e : Nat) (st : RunState),
      a.save_best = true → st.best_acc ≤ (runEpoch a env m e st).best_acc) ∧
    (∀ (a : Args) (env : Env) (m : Model) (i : Nat) (st : RunState) (k : Nat),
      a.save_best = true → st.best_acc ≤ (stateAfterEpochs a env m i st k).best_acc) := by
  refine ⟨fun v b => rfl, fun v b => by simp [shouldSave], ?_, ?_, ?_, ?_⟩
  · intro a env m e st
    exact (runEpoch_save a env m e st).1
  · intro a env m e st hss
    rw [(runEpoch_save a env m e st).2.1, if_pos hss]
  · intro a env m e st hsb
    exact runEpoch_best_mono a env m e st hsb
  · intro a env m i st k hsb
    induction k with
    | zero => simp [stateAfterEpochs]
    | succ k ih =>
        rw [stateAfterEpochs_succ]
        exact le_trans ih
          (runEpoch_best_mono a env m (i + k) (stateAfterEpochs a env m i st k) hsb)

/-- C5 witness: with save_best set, accuracy 1 against watermark 0 is accepted
and the watermark is updated to 1. -/
theorem c5_witness :
    shouldSave argsSaveBest.save_best (envA.epochValidAcc 0) stEmpty.best_acc = true ∧
    (runEpoch argsSaveBest envA Model.resnet18 0 stEmpty).best_acc
      = envA.epochValidAcc 0 :=
  ⟨rfl, c5_best_model_selector.2.2.2.1 argsSaveBest envA Model.resnet18 0 stEmpty rfl⟩

/-- C6 counterexample: an unsupervised fresh one-epoch one-batch run. The
claim that after a completed epoch the only keys are acc and loss_bn is false
at this input: the log also holds a nonempty val_acc sequence, appended by
src line 156 (no loss_crit key does appear, as claimed). -/
theorem c6_counterexample :
    (logsOf (mainRun argsUnsup envA none)).loss_crit = [] ∧
    (logsOf (mainRun argsUnsup envA none)).val_acc = [0] ∧
    ([0] : List ℚ) ≠ [] := by
  refine ⟨rfl, rfl, by simp⟩

/-- C6 corrected: in unsupervised runs no entry is ever appended to loss_crit
(so a fresh run never has a loss_crit key), while acc, loss_bn and also
val_acc each grow by batches entries per completed epoch, so after any
completed epoch with a nonempty loader the keys are acc, loss_bn and val_acc. -/
theorem c6_unsupervised_keys (a : Args) (env : Env) (m : Model) (i : Nat) (st : RunState)
    (k : Nat) (hu : a.unsupervised = true) :
    (stateAfterEpochs a env m i st k).logs.loss_crit = st.logs.loss_crit ∧
    (stateAfterEpochs a env m i st k).logs.acc.length
      = st.logs.acc.length + k * env.batches ∧
    (stateAfterEpochs a env m i st k).logs.loss_bn.length
      = st.logs.loss_bn.length + k * env.batches ∧
    (stateAfterEpochs a env m i st k).logs.val_acc.length
      = st.logs.val_acc.length + k * env.batches := by
  obtain ⟨h1, h2, h3, h4, h5, h6⟩ := stateAfterEpochs_lens a env m i st k
  exact ⟨h6 hu, h1, h2, h4⟩

/-- C6 witness: the corrected statement at an unsupervised fresh one-epoch
one-batch run. -/
theorem c6_witness :
    (stateAfterEpochs argsUnsup envA Model.resnet18 0 stEmpty 1).logs.loss_crit
      = stEmpty.logs.loss_crit ∧
    (stateAfterEpochs argsUnsup envA Model.resnet18 0 stEmpty 1).logs.acc.length
      = stEmpty.logs.acc.length + 1 * envA.batches ∧
    (stateAfterEpochs argsUnsup envA Model.resnet18 0 stEmpty 1).logs.loss_bn.length
      = stEmpty.logs.loss_bn.length + 1 * envA.batches ∧
    (stateAfterEpochs argsUnsup envA Model.resnet18 0 stEmpty 1).logs.val_acc.length
      = stEmpty.logs.val_acc.length + 1 * envA.batches :=
  c6_unsupervised_keys argsUnsup envA Model.resnet18 0 stEmpty 1 rfl

/-- C7 counterexample: a resumed supervised run (checkpoint saved after one
earlier epoch, each metric sequence already holding one entry, one batch per
epoch, one further epoch). After epoch e = 1 with init_epoch = 1 the acc
sequence has 2 entries, but the claimed formula gives (1 - 1 + 1) * 1 = 1. -/
theorem c7_counterexample :
    (logsOf (mainRun argsResume envA (some ckPrior))).acc.length = 2 ∧
    (2 : Nat) ≠ (1 - 1 + 1) * 1 := by
  refine ⟨rfl, by decide⟩

/-- C7 corrected: after k completed epochs each metric sequence the run
appends to has length equal to its restored prior length plus k * batches
(loss_crit only in supervised mode; it stays at its prior length in
unsupervised mode). The claimed formula (e - init_epoch + 1) * batches, with
k = e - init_epoch + 1, holds exactly when the prior length is zero, i.e. on
a fresh start. -/
theorem c7_log_growth (a : Args) (env : Env) (m : Model) (i : Nat) (st : RunState)
    (k : Nat) :
    (stateAfterEpochs a env m i st k).logs.acc.length
      = st.logs.acc.length + k * env.batches ∧
    (stateAfterEpochs a env m i st k).logs.loss_bn.length
      = st.logs.loss_bn.length + k * env.batches ∧
    (stateAfterEpochs a env m i st k).logs.val_acc.length
      = st.logs.val_acc.length + k * env.batches ∧
    (stateAfterEpochs a env m i st k).logs.loss_crit.length
      = st.logs.loss_crit.length + (if a.unsupervised then 0 else k * env.batches) := by
  obtain ⟨h1, h2, h3, h4, h5, h6⟩ := stateAfterEpochs_lens a env m i st k
  exact ⟨h1, h2, h4, h3⟩

/-- C8 counterexample: with loader length n = 1 the appended interpolation is
the single previous accuracy, so its last element is not the newly measured
accuracy: the claim fails at a = 0, b = 1, n = 1. -/
theorem c8_counterexample :
    linspace 0 1 1 = [0] ∧ (linspace 0 1 1).getLast? ≠ some 1 := by
  refine ⟨rfl, ?_⟩
  rw [linspace_one]
  simp

/-- C8 corrected: each epoch boundary appends exactly batches points, the
linspace segment, to val_acc. For batches at least 2 the first point equals
the previous validation accuracy, the last equals the new one, and consecutive
points differ by the constant (new - old) / (batches - 1) (evenly spaced).
For batches = 1 the single appended point equals the previous accuracy, not
the new one. -/
theorem c8_interpolation (a : Args) (env : Env) (m : Model) (e : Nat) (st : RunState)
    (h2 : 2 ≤ env.batches) :
    (runEpoch a env m e st).logs.val_acc
      = (epochSteps env a.unsupervised e st.logs).val_acc
        ++ linspace st.valid_acc (env.epochValidAcc e) env.batches ∧
    (epochSteps env a.unsupervised e st.logs).val_acc = st.logs.val_acc ∧
    (linspace st.valid_acc (env.epochValidAcc e) env.batches).length = env.batches ∧
    (linspace st.valid_acc (env.epochValidAcc e) env.batches).head? = some st.valid_acc ∧
    (linspace st.valid_acc (env.epochValidAcc e) env.batches).getLast?
      = some (env.epochValidAcc e) ∧
    (∀ i : Nat, i + 1 < env.batches →
      (linspace st.valid_acc (env.epochValidAcc e) env.batches).getD (i + 1) 0
        - (linspace st.valid_acc (env.epochValidAcc e) env.batches).getD i 0
        = (env.epochValidAcc e - st.valid_acc) / ((env.batches : ℚ) - 1)) ∧
    (∀ aq bq : ℚ, linspace aq bq 1 = [aq]) := by
  obtain ⟨f1, f2, f3, f4, f5, f6⟩ := runEpoch_fields a env m e st
  obtain ⟨e1, e2, e3, e4, e5⟩ := epochSteps_lens env a.unsupervised e st.logs
  exact ⟨f4, e4, linspace_length _ _ _, linspace_head _ _ _ (by omega),
    linspace_last _ _ _ h2, fun i hi => linspace_step _ _ _ h2 i hi,
    fun aq bq => linspace_one aq bq⟩

/-- C8 witness: the endpoints of the two-point interpolation from accuracy 0
to accuracy 1. -/
theorem c8_witness :
    (linspace (0 : ℚ) 1 2).head? = some 0 ∧ (linspace (0 : ℚ) 1 2).getLast? = some 1 := by
  have h := c8_interpolation argsPlain envB Model.resnet18 0 stEmpty (by decide)
  exact ⟨h.2.2.2.1, h.2.2.2.2.1⟩

/-- C9: code-bug demonstration. Subscripting a module object always fails, so
in any run that trained with save_best set and has a checkpoint on disk the
epilogue of src lines 166-168 raises a TypeError while evaluating the loaded
bundle entry model with the key epoch, instead of reporting the stored epoch
count; consequently the final plot of src line 171 is not rendered either.
Shown by universal failure of the subscript and by evaluating a concrete
fresh save_best run. -/
theorem c9_best_reload_fails :
    (∀ (m : Model) (key : String), modelGetItem m key = none) ∧
    mainRun argsSaveBest envA none = Except.error modelSubscriptError ∧
    plotRendered (mainRun argsSaveBest envA none) = false := by
  exact ⟨fun _ _ => rfl, rfl, rfl⟩

/-- C10: confirmed. The device is the constant string cuda for every argument
vector, and the whole modelled run is invariant under flipping the cuda flag. -/
theorem c10_cuda_flag_inert :
    (∀ a : Args, device a = "cuda") ∧
    (∀ (a : Args) (b : Bool) (env : Env) (disk : Option Checkpoint),
      mainRun { a with cuda := b } env disk = mainRun a env disk) := by
  refine ⟨fun _ => rfl, fun a b env disk => ?_⟩
  cases a
  rfl
end Transfer
